import Mathlib

/-
Verification of the WanJoo overlay utility: a browser tool that captures a
screenshot of a game window, sends it to a remote multimodal model, and
displays the returned move suggestion.

Shallow embedding of the two source files:
  * src/src/services/geminiService.ts  (the inference client)
  * src/src/App.tsx                    (the capture controller and UI state)

The JavaScript builtin JSON.parse is modelled by an executable RFC-8259 style
parser over character lists, with numbers represented exactly as rationals.
The exactness is adequate here: every comparison exercised by the claims
(for instance confidence 0.92 against the threshold 0.8) has the same outcome
for rationals and for IEEE doubles.
-/

namespace WanJoo

/-! ## JSON values (model of JavaScript runtime values produced by JSON.parse) -/

/-- A JSON number as an exact scaled decimal, mantissa times ten to the
exponent.  JavaScript parses numbers to binary floats; the exact-decimal
model is adequate here because every numeric comparison the program makes
(confidence against the threshold 0.8) has the same outcome for both. -/
structure JsonNum where
  mant : Int
  exp : Int
deriving DecidableEq

/-- A JSON value. Objects keep their members in source order. -/
inductive Json where
  | null
  | bool (b : Bool)
  | num (n : JsonNum)
  | str (s : String)
  | arr (elems : List Json)
  | obj (members : List (String × Json))

/-- Strict order on scaled decimals, by cross-scaling to a common exponent. -/
def JsonNum.ltb (a b : JsonNum) : Bool :=
  let m := min a.exp b.exp
  decide (a.mant * 10 ^ (a.exp - m).toNat < b.mant * 10 ^ (b.exp - m).toNat)

/-- Non-strict order on scaled decimals. -/
def JsonNum.leb (a b : JsonNum) : Bool :=
  let m := min a.exp b.exp
  decide (a.mant * 10 ^ (a.exp - m).toNat ≤ b.mant * 10 ^ (b.exp - m).toNat)

/-- Whether a scaled decimal denotes an integer. -/
def JsonNum.isWhole (a : JsonNum) : Bool :=
  decide (0 ≤ a.exp) || decide (a.mant % (10 : Int) ^ (-a.exp).toNat = 0)

/-- The opening brace character, written numerically. -/
def lbrace : Char := Char.ofNat 123

/-- The closing brace character, written numerically. -/
def rbrace : Char := Char.ofNat 125

/-- JSON insignificant whitespace. -/
def isWsChar (c : Char) : Bool := c = ' ' || c = '\t' || c = '\n' || c = '\r'

/-- Drop leading insignificant whitespace. -/
def skipWs : List Char → List Char
  | [] => []
  | c :: cs => if isWsChar c then skipWs cs else c :: cs

/-- Value of a hexadecimal digit, if the character is one. -/
def hexDigit (c : Char) : Option Nat :=
  if '0' ≤ c ∧ c ≤ '9' then some (c.toNat - 48)
  else if 'a' ≤ c ∧ c ≤ 'f' then some (c.toNat - 87)
  else if 'A' ≤ c ∧ c ≤ 'F' then some (c.toNat - 55)
  else none

/-- Consume an expected literal (such as null or true), returning the rest. -/
def dropLit : List Char → List Char → Option (List Char)
  | [], cs => some cs
  | _ :: _, [] => none
  | l :: ls, c :: cs => if c = l then dropLit ls cs else none

/-- Body of a JSON string literal, after the opening quote.  Handles the
standard escapes; rejects unescaped control characters as JSON.parse does. -/
def strBody (fuel : Nat) (acc : List Char) (cs : List Char) : Option (String × List Char) :=
  match fuel with
  | 0 => none
  | f + 1 =>
    match cs with
    | [] => none
    | '"' :: rest => some (String.mk acc.reverse, rest)
    | '\\' :: 'u' :: h1 :: h2 :: h3 :: h4 :: rest =>
      match hexDigit h1, hexDigit h2, hexDigit h3, hexDigit h4 with
      | some a, some b, some c, some d =>
        strBody f (Char.ofNat (((a * 16 + b) * 16 + c) * 16 + d) :: acc) rest
      | _, _, _, _ => none
    | '\\' :: e :: rest =>
      match e with
      | '"' => strBody f ('"' :: acc) rest
      | '\\' => strBody f ('\\' :: acc) rest
      | '/' => strBody f ('/' :: acc) rest
      | 'b' => strBody f (Char.ofNat 8 :: acc) rest
      | 'f' => strBody f (Char.ofNat 12 :: acc) rest
      | 'n' => strBody f ('\n' :: acc) rest
      | 'r' => strBody f ('\r' :: acc) rest
      | 't' => strBody f ('\t' :: acc) rest
      | _ => none
    | c :: rest => if c.toNat < 32 then none else strBody f (c :: acc) rest

/-- Longest run of leading decimal digits, and the remainder. -/
def takeDigits : List Char → List Char × List Char
  | [] => ([], [])
  | c :: cs =>
    if c.isDigit then
      let (ds, r) := takeDigits cs
      (c :: ds, r)
    else ([], c :: cs)

/-- Numeric value of a digit run. -/
def digitsVal (acc : Nat) : List Char → Nat
  | [] => acc
  | c :: cs => digitsVal (acc * 10 + (c.toNat - 48)) cs

/-- Fractional part of a number: either absent, or a dot followed by at
least one digit (as JSON requires). -/
def fracPart (cs : List Char) : Option (List Char × List Char) :=
  match cs with
  | '.' :: rest =>
    match takeDigits rest with
    | ([], _) => none
    | (ds, r) => some (ds, r)
  | _ => some ([], cs)

/-- Exponent part of a number: either absent, or e/E, an optional sign, and
at least one digit. -/
def expPart (cs : List Char) : Option (Int × List Char) :=
  match cs with
  | [] => some (0, [])
  | c :: rest =>
    if c = 'e' ∨ c = 'E' then
      let (negExp, rest2) :=
        match rest with
        | '-' :: r => (true, r)
        | '+' :: r => (false, r)
        | _ => (false, rest)
      match takeDigits rest2 with
      | ([], _) => none
      | (ds, r) =>
        let n : Int := Int.ofNat (digitsVal 0 ds)
        some (if negExp then -n else n, r)
    else some (0, c :: rest)

/-- A JSON number: optional minus, integer part without leading zeros,
optional fraction, optional exponent.  Exact scaled-decimal value. -/
def numToken (cs : List Char) : Option (JsonNum × List Char) :=
  let (neg, cs1) :=
    match cs with
    | '-' :: rest => (true, rest)
    | _ => (false, cs)
  match takeDigits cs1 with
  | ([], _) => none
  | (intDs, cs2) =>
    match intDs with
    | '0' :: _ :: _ => none
    | _ =>
      match fracPart cs2 with
      | none => none
      | some (fracDs, cs3) =>
        match expPart cs3 with
        | none => none
        | some (e, cs4) =>
          let m : Int := Int.ofNat (digitsVal 0 (intDs ++ fracDs))
          some (⟨if neg then -m else m, e - fracDs.length⟩, cs4)

mutual

/-- One JSON value, recursive descent with a fuel bound for totality. -/
def jsonValue (fuel : Nat) (cs0 : List Char) : Option (Json × List Char) :=
  match fuel with
  | 0 => none
  | f + 1 =>
    match skipWs cs0 with
    | [] => none
    | c :: rest =>
      if c = '"' then
        match strBody (rest.length + 1) [] rest with
        | some (s, r) => some (Json.str s, r)
        | none => none
      else if c = lbrace then jsonObjBody f (skipWs rest)
      else if c = '[' then jsonArrBody f (skipWs rest)
      else if c = 'n' then
        match dropLit ['n', 'u', 'l', 'l'] (c :: rest) with
        | some r => some (Json.null, r)
        | none => none
      else if c = 't' then
        match dropLit ['t', 'r', 'u', 'e'] (c :: rest) with
        | some r => some (Json.bool true, r)
        | none => none
      else if c = 'f' then
        match dropLit ['f', 'a', 'l', 's', 'e'] (c :: rest) with
        | some r => some (Json.bool false, r)
        | none => none
      else
        match numToken (c :: rest) with
        | some (n, r) => some (Json.num n, r)
        | none => none

/-- Inside an object, just after the opening brace (whitespace skipped). -/
def jsonObjBody (fuel : Nat) (cs : List Char) : Option (Json × List Char) :=
  match fuel with
  | 0 => none
  | f + 1 =>
    match cs with
    | [] => none
    | c :: rest =>
      if c = rbrace then some (Json.obj [], rest)
      else jsonMembers f [] (c :: rest)

/-- A comma-separated, nonempty run of key : value members. -/
def jsonMembers (fuel : Nat) (acc : List (String × Json)) (cs : List Char) :
    Option (Json × List Char) :=
  match fuel with
  | 0 => none
  | f + 1 =>
    match skipWs cs with
    | '"' :: rest =>
      match strBody (rest.length + 1) [] rest with
      | some (key, r1) =>
        match skipWs r1 with
        | ':' :: r2 =>
          match jsonValue f r2 with
          | some (v, r3) =>
            match skipWs r3 with
            | [] => none
            | c :: r4 =>
              if c = ',' then jsonMembers f ((key, v) :: acc) r4
              else if c = rbrace then some (Json.obj (((key, v) :: acc).reverse), r4)
              else none
          | none => none
        | _ => none
      | none => none
    | _ => none

/-- Inside an array, just after the opening bracket (whitespace skipped). -/
def jsonArrBody (fuel : Nat) (cs : List Char) : Option (Json × List Char) :=
  match fuel with
  | 0 => none
  | f + 1 =>
    match cs with
    | [] => none
    | c :: rest =>
      if c = ']' then some (Json.arr [], rest)
      else jsonElems f [] (c :: rest)

/-- A comma-separated, nonempty run of array elements. -/
def jsonElems (fuel : Nat) (acc : List Json) (cs : List Char) : Option (Json × List Char) :=
  match fuel with
  | 0 => none
  | f + 1 =>
    match jsonValue f cs with
    | some (v, r1) =>
      match skipWs r1 with
      | [] => none
      | c :: r2 =>
        if c = ',' then jsonElems f (v :: acc) r2
        else if c = ']' then some (Json.arr ((v :: acc).reverse), r2)
        else none
    | none => none

end

/-- Model of JavaScript JSON.parse: one complete value, with nothing but
whitespace allowed after it.  Returns none exactly when JSON.parse throws. -/
def jsonParse (s : String) : Option Json :=
  match jsonValue (2 * s.length + 4) s.data with
  | some (j, rest) => if (skipWs rest).isEmpty then some j else none
  | none => none

/-! ## geminiService.ts: the inference client -/

/-- The ASCII apostrophe, as a one-character string. -/
def sq : String := String.mk [Char.ofNat 39]

/-- The message of the Error thrown by startCapture when no capture
capability exists (App.tsx line 31). -/
def unsupportedMsg : String :=
  "La capture d" ++ sq ++ "écran n" ++ sq ++
    "est pas supportée par ce navigateur ou dans ce contexte (Iframe/Mobile)."

/-- The fixed string startCapture's catch handler passes to setError for
every failure (App.tsx line 58). -/
def cancelledMsg : String := "Capture annulée."

/-- The message of the Error analyzeGameScreenshot throws when JSON.parse
throws (geminiService.ts line 60). -/
def analysisErrorMsg : String :=
  "L" ++ sq ++ "IA n" ++ sq ++ "a pas pu analyser l" ++ sq ++ "image correctement."

/-- The fallback analyzeImage uses when a caught error has an empty message
(App.tsx line 96). -/
def analysisFallbackMsg : String := "Erreur d" ++ sq ++ "analyse."

/-- JavaScript String.prototype.split on a one-character separator:
the empty string splits to one empty piece, and separators at the ends
produce empty pieces. -/
def splitOnChar (sep : Char) : List Char → List (List Char)
  | [] => [[]]
  | c :: cs =>
    if c = sep then [] :: splitOnChar sep cs
    else
      match splitOnChar sep cs with
      | [] => [[c]]
      | p :: ps => (c :: p) :: ps

/-- base64Image.split(",")[1] from geminiService.ts line 35: the second
comma-separated piece, or undefined (none) when the input holds no comma. -/
def stripPayload (base64Image : String) : Option String :=
  (splitOnChar ',' base64Image.data)[1]?.map String.mk

/-- The generateContent request analyzeGameScreenshot builds: fixed model
identifier, fixed mime type, and the stripped image payload — absent
(undefined in JavaScript) when the data URI holds no comma.  The request is
built and sent with no local validation of the payload. -/
structure GenRequest where
  model : String
  mimeType : String
  data : Option String
deriving DecidableEq

/-- The request as built from the input data URI (geminiService.ts 26 to 53). -/
def mkRequest (base64Image : String) : GenRequest :=
  ⟨"gemini-3-flash-preview", "image/png", stripPayload base64Image⟩

/-- Behaviour of the awaited remote call: either the transport rejects with
some message, or a response arrives whose text is a string or absent. -/
inductive RemoteOutcome where
  | transportError (msg : String)
  | response (text : Option String)

/-- response.text or the empty-object literal: the expression
JSON.parse(response.text or default) substitutes the two-character object
text exactly when response.text is undefined or the empty string (the two
falsy string values). -/
def effectiveText : Option String → String
  | none => "\x7b\x7d"
  | some t => if t = "" then "\x7b\x7d" else t

/-- The try block of analyzeGameScreenshot: parse the effective text, return
the parsed value cast to MoveSuggestion with no shape validation, or throw
the fixed analysis error when JSON.parse throws. -/
def parseResponse (text : Option String) : Except String Json :=
  match jsonParse (effectiveText text) with
  | some j => Except.ok j
  | none => Except.error analysisErrorMsg

/-- analyzeGameScreenshot: builds the request from the data URI, then either
propagates a transport rejection unchanged (the await sits outside the try)
or parses the response text.  Returns the request it sent alongside the
outcome. -/
def analyzeGameScreenshot (remote : RemoteOutcome) (base64Image : String) :
    GenRequest × Except String Json :=
  let req := mkRequest base64Image
  match remote with
  | RemoteOutcome.transportError m => (req, Except.error m)
  | RemoteOutcome.response t => (req, parseResponse t)

/-! ## App.tsx: UI state and the capture workflow -/

/-- The five useState cells of App. -/
structure AppState where
  screenshot : Option String
  suggestion : Option Json
  loading : Bool
  error : Option String
  showResult : Bool

/-- The initial values of the five useState cells (App.tsx 13 to 17). -/
def initialState : AppState :=
  { screenshot := none, suggestion := none, loading := false,
    error := none, showResult := false }

/-- closeResult (App.tsx 103 to 107). -/
def closeResult (s : AppState) : AppState :=
  { s with showResult := false, suggestion := none, screenshot := none }

/-- Property lookup on parsed-object members: with duplicate keys JSON.parse
keeps the last occurrence, so lookup prefers later members. -/
def lookupLast (key : String) : List (String × Json) → Option Json
  | [] => none
  | (k, v) :: rest =>
    match lookupLast key rest with
    | some r => some r
    | none => if k = key then some v else none

/-- result.confidence as a number: property access on the parsed value,
defined when the value is an object whose confidence member is a number. -/
def getConfidence (j : Json) : Option JsonNum :=
  match j with
  | Json.obj ms =>
    match lookupLast "confidence" ms with
    | some (Json.num n) => some n
    | _ => none
  | _ => none

/-- The guard result.confidence > 0.8 in analyzeImage (App.tsx line 88).
An absent confidence (undefined) compares false in JavaScript; a
non-numeric confidence would be coerced by JavaScript comparison and lies
outside the modelled fragment, which treats it as not triggering. -/
def confettiCond (j : Json) : Bool :=
  match getConfidence j with
  | some n => JsonNum.ltb ⟨8, -1⟩ n
  | none => false

/-- analyzeImage (App.tsx 84 to 101): on success stores the suggestion,
shows the result, and fires confetti when the guard holds; on any caught
error stores the error message (or the fallback when the message is empty);
the finally clause clears loading on both paths.  Returns the new state and
whether confetti fired. -/
def analyzeImage (remote : RemoteOutcome) (dataUrl : String) (s : AppState) :
    AppState × Bool :=
  match (analyzeGameScreenshot remote dataUrl).2 with
  | Except.ok j =>
    ({ s with suggestion := some j, showResult := true, loading := false },
      confettiCond j)
  | Except.error m =>
    let shown : String := if m = "" then analysisFallbackMsg else m
    ({ s with error := some shown, loading := false }, false)

/-- Result of the takeScreenshot step: the stream tracks' stop counts (a
fresh track has count 0; a track reports stopped when its count is
positive), and whether a frame was extracted and handed to analyzeImage. -/
structure ShotStep where
  tracks : List Nat
  frameExtracted : Bool

/-- takeScreenshot (App.tsx 63 to 82).  The guard on both element refs
encloses the whole body, the track-stopping loop included; the 2d-context
guard encloses only the draw, the data-URL encoding, and the handoff to
analyzeImage. -/
def takeScreenshot (videoRefPresent canvasRefPresent ctxPresent : Bool)
    (tracks : List Nat) : ShotStep :=
  if videoRefPresent && canvasRefPresent then
    { tracks := tracks.map (· + 1), frameExtracted := ctxPresent }
  else
    { tracks := tracks, frameExtracted := false }

/-- The execution environment of one capture attempt: which platform
capabilities exist, whether the user grants the permission prompt, and
which element refs and canvas context are non-null when used. -/
structure Env where
  mediaDevicesPresent : Bool
  mediaDevicesHasGDM : Bool
  navHasGDM : Bool
  userGrants : Bool
  videoRefPresent : Bool
  canvasRefPresent : Bool
  ctxPresent : Bool
deriving DecidableEq

/-- The capability test of startCapture (App.tsx 29 to 34): the guarded
throw fires exactly when neither navigator.mediaDevices.getDisplayMedia nor
the legacy navigator.getDisplayMedia exists. -/
def captureSupported (e : Env) : Bool :=
  (e.mediaDevicesPresent && e.mediaDevicesHasGDM) || e.navHasGDM

/-- Observable outcome of one whole capture attempt: final UI state, whether
the unsupported Error was thrown inside the try block, how many
getDisplayMedia requests and analyzeGameScreenshot calls were made, whether
confetti fired, and the acquired stream tracks' stop counts (none when no
stream was ever acquired). -/
structure FlowResult where
  state : AppState
  thrownUnsupported : Bool
  gdmRequests : Nat
  analyzeCalls : Nat
  confettiFired : Bool
  tracks : Option (List Nat)

/-- The capture workflow of App.tsx: startCapture plus, when the stream is
attached and its metadata fires, the deferred takeScreenshot and
analyzeImage continuation.  frameData stands for the canvas.toDataURL
result, remote for the remote model's behaviour, trackCount for the
acquired stream's track count.  Both the capability throw and a rejected
permission promise are handled by the one catch handler, which sets the
fixed cancelled message and clears loading; when the stream is acquired but
the video ref is null, the try block ends with nothing scheduled, so
loading stays set and the tracks are never stopped. -/
def captureWorkflow (env : Env) (remote : RemoteOutcome) (frameData : String)
    (trackCount : Nat) (s : AppState) : FlowResult :=
  let s1 : AppState := { s with error := none }
  if captureSupported env = false then
    { state := { s1 with error := some cancelledMsg, loading := false },
      thrownUnsupported := true, gdmRequests := 0, analyzeCalls := 0,
      confettiFired := false, tracks := none }
  else
    let s2 : AppState := { s1 with loading := true }
    if env.userGrants = false then
      { state := { s2 with error := some cancelledMsg, loading := false },
        thrownUnsupported := false, gdmRequests := 1, analyzeCalls := 0,
        confettiFired := false, tracks := none }
    else
      let fresh : List Nat := List.replicate trackCount 0
      if env.videoRefPresent = false then
        { state := s2, thrownUnsupported := false, gdmRequests := 1,
          analyzeCalls := 0, confettiFired := false, tracks := some fresh }
      else
        let shot := takeScreenshot env.videoRefPresent env.canvasRefPresent
          env.ctxPresent fresh
        if shot.frameExtracted then
          let s3 : AppState := { s2 with screenshot := some frameData }
          let step := analyzeImage remote frameData s3
          { state := step.1, thrownUnsupported := false, gdmRequests := 1,
            analyzeCalls := 1, confettiFired := step.2,
            tracks := some shot.tracks }
        else
          { state := s2, thrownUnsupported := false, gdmRequests := 1,
            analyzeCalls := 0, confettiFired := false,
            tracks := some shot.tracks }

/-- Modelled from the spec: the well-formedness predicate section 3 and
section 8 of the specification place on a returned MoveSuggestion — all
three members present, the explanation a string, the column a positive
integer, the confidence a number within zero and one.  The source performs
no such validation; this definition exists to compare the spec's words with
what the code returns. -/
def specWellFormedSuggestion (j : Json) : Bool :=
  match j with
  | Json.obj ms =>
    (match lookupLast "explanation" ms with
      | some (Json.str _) => true
      | _ => false) &&
    (match lookupLast "column" ms with
      | some (Json.num n) => JsonNum.ltb ⟨0, 0⟩ n && JsonNum.isWhole n
      | _ => false) &&
    (match lookupLast "confidence" ms with
      | some (Json.num n) => JsonNum.leb ⟨0, 0⟩ n && JsonNum.leb n ⟨1, 0⟩
      | _ => false)
  | _ => false

/-! ## Concrete inputs used by the claims -/

/-- The exact response text of the spec's round-trip example. -/
def c5Text : String :=
  "\x7b\"explanation\":\"col 3 best\",\"column\":3,\"confidence\":0.92\x7d"

/-- The parsed value of that text. -/
def c5Obj : Json :=
  Json.obj [("explanation", Json.str "col 3 best"),
    ("column", Json.num ⟨3, 0⟩), ("confidence", Json.num ⟨92, -2⟩)]

/-- A valid-JSON response that matches no part of the MoveSuggestion shape
constraints: column zero, confidence two. -/
def badText : String :=
  "\x7b\"explanation\":\"x\",\"column\":0,\"confidence\":2\x7d"

/-- The parsed value of that text. -/
def badObj : Json :=
  Json.obj [("explanation", Json.str "x"),
    ("column", Json.num ⟨0, 0⟩), ("confidence", Json.num ⟨2, 0⟩)]

/-- An environment with no capture capability at all. -/
def envNoCapability : Env := ⟨false, false, false, true, true, true, true⟩

/-- An environment with the capability present where the user declines the
permission prompt. -/
def envUserDeclines : Env := ⟨true, true, false, false, true, true, true⟩

/-- Capability present and granted, but the canvas element ref is null when
the deferred takeScreenshot runs. -/
def envCanvasMissing : Env := ⟨true, true, false, true, true, false, true⟩

/-- Capability present and granted, both element refs present; the 2d
context may or may not be available. -/
def envRefsPresent (ctx : Bool) : Env := ⟨true, true, false, true, true, true, ctx⟩

/-! ## Claim theorems -/

/-- Claim C1, as stated, is false: a missing or empty response text does not
fail — the expression JSON.parse(response.text or default) substitutes the
empty-object literal, so analyzeGameScreenshot returns the empty object
(every field absent); and valid JSON of the wrong shape is returned as-is.
Only the third conjunct's premises, a present nonempty text that is not
valid JSON, produce the error. -/
theorem c1_cex :
    parseResponse none = Except.ok (Json.obj [])
    ∧ parseResponse (some "") = Except.ok (Json.obj [])
    ∧ parseResponse (some "\x7b\"a\":1\x7d") =
        Except.ok (Json.obj [("a", Json.num ⟨1, 0⟩)]) :=
  ⟨rfl, rfl, rfl⟩

/-- Claim C1 amended: only a present, nonempty response text that fails to
parse as JSON makes analyzeGameScreenshot fail with the analysis-unparseable
error (with no partial result, the outcome being an error and nothing else);
missing or empty text instead yields the empty object, and valid JSON not
matching the MoveSuggestion shape is returned unvalidated. -/
theorem c1_parse_guard (t : String) (hne : t ≠ "") (hbad : jsonParse t = none) :
    parseResponse (some t) = Except.error analysisErrorMsg := by
  simp only [parseResponse, effectiveText, if_neg hne, hbad]

/-- Witness for c1_parse_guard at the spec's own example text. -/
theorem c1_parse_guard_witness :
    parseResponse (some "not json") = Except.error analysisErrorMsg :=
  c1_parse_guard "not json" (by decide) rfl

/-- Claim C2, as stated, is false: the response below is valid JSON, so
analyzeGameScreenshot returns it unchanged even though its column is zero
(not positive) and its confidence is two (outside the unit interval) — no
analysis-parse error is raised and no validation occurs. -/
theorem c2_cex :
    parseResponse (some badText) = Except.ok badObj
    ∧ specWellFormedSuggestion badObj = false :=
  ⟨rfl, rfl⟩

/-- Claim C2 amended: for every response text, analyzeGameScreenshot either
returns the parsed JSON value completely unchanged — performing no local
validation of field presence, confidence range, or column positivity — or
fails with the analysis-parse error; in particular whenever the nonempty
text is valid JSON the parsed value is returned as-is. -/
theorem c2_no_local_validation (t : String) (j : Json) (hne : t ≠ "")
    (hok : jsonParse t = some j) : parseResponse (some t) = Except.ok j := by
  simp only [parseResponse, effectiveText, if_neg hne, hok]

/-- Witness for c2_no_local_validation at the out-of-range response. -/
theorem c2_no_local_validation_witness :
    parseResponse (some badText) = Except.ok badObj
    ∧ specWellFormedSuggestion badObj = false :=
  ⟨c2_no_local_validation badText badObj (by decide) rfl, rfl⟩

/-- Claim C3 describes the intended error taxonomy, but the code's single
catch handler discards the thrown unsupported Error and surfaces the fixed
cancelled string for every failure: with the capability absent the
unsupported Error is indeed thrown inside the try block, yet the surfaced
error equals the one surfaced when the user declines the prompt, and that
shared string differs from the unsupported message.  The two failure
conditions therefore do not produce distinct signals. -/
theorem c3_signals_not_distinct :
    (captureWorkflow envNoCapability (RemoteOutcome.response none) "d" 1
        initialState).thrownUnsupported = true
    ∧ (captureWorkflow envNoCapability (RemoteOutcome.response none) "d" 1
        initialState).state.error = some cancelledMsg
    ∧ (captureWorkflow envUserDeclines (RemoteOutcome.response none) "d" 1
        initialState).state.error = some cancelledMsg
    ∧ cancelledMsg ≠ unsupportedMsg :=
  ⟨rfl, rfl, rfl, by decide⟩

/-- Claim C4, as stated, is false: on the exit path where the canvas
element ref is null when the deferred takeScreenshot runs, the acquired
stream's single track is never stopped — its stop count stays zero. -/
theorem c4_cex :
    (captureWorkflow envCanvasMissing (RemoteOutcome.response none) "d" 1
        initialState).tracks = some [0]
    ∧ ([0] : List Nat) ≠ [1] :=
  ⟨rfl, by decide⟩

/-- Claim C4 amended: when both element refs are present, takeScreenshot
stops every track of its stream exactly once on each of its exit paths
(with or without a 2d context), so after a successful capture every track
of the acquired stream reports a stopped state; the same holds through the
whole workflow. -/
theorem c4_tracks_stopped (ctx : Bool) (n : Nat) (remote : RemoteOutcome)
    (fd : String) (s : AppState) :
    (takeScreenshot true true ctx (List.replicate n 0)).tracks =
      List.replicate n 1
    ∧ (captureWorkflow (envRefsPresent ctx) remote fd n s).tracks =
      some (List.replicate n 1) := by
  constructor
  · simp [takeScreenshot]
  · cases ctx <;>
      simp [captureWorkflow, envRefsPresent, captureSupported, takeScreenshot,
        analyzeImage]

/-- Claim C5: when the remote response is exactly the spec's example text,
analyzeGameScreenshot returns that object unchanged; analyzeImage stores it,
shows the result, and — its confidence 0.92 exceeding the 0.8 threshold —
fires the confetti side effect; and in general every returned suggestion
whose confidence exceeds 0.8 fires confetti. -/
theorem c5_exact_response :
    (∀ d, (analyzeGameScreenshot (RemoteOutcome.response (some c5Text)) d).2 =
      Except.ok c5Obj)
    ∧ (∀ d s, analyzeImage (RemoteOutcome.response (some c5Text)) d s =
      ({ s with suggestion := some c5Obj, showResult := true, loading := false },
        true))
    ∧ (∀ t j d s, parseResponse t = Except.ok j → confettiCond j = true →
      (analyzeImage (RemoteOutcome.response t) d s).2 = true) := by
  refine ⟨fun d => rfl, fun d s => rfl, fun t j d s hok hconf => ?_⟩
  simp [analyzeImage, analyzeGameScreenshot, hok, hconf]

/-- Witness for c5_exact_response: the universal confetti conjunct applied
at the example response itself. -/
theorem c5_exact_response_witness :
    (analyzeImage (RemoteOutcome.response (some c5Text)) "d" initialState).2 =
      true :=
  c5_exact_response.2.2 (some c5Text) c5Obj "d" initialState rfl rfl

/-- Claim C6: when the capture capability is absent, the workflow fails
before acquiring anything — it never calls analyzeGameScreenshot (so no
remote request is made) and never even issues a getDisplayMedia request. -/
theorem c6_unsupported_no_remote_call (env : Env) (remote : RemoteOutcome)
    (fd : String) (n : Nat) (s : AppState)
    (h : captureSupported env = false) :
    (captureWorkflow env remote fd n s).analyzeCalls = 0
    ∧ (captureWorkflow env remote fd n s).gdmRequests = 0 := by
  simp [captureWorkflow, h]

/-- Witness for c6_unsupported_no_remote_call in the capability-free
environment. -/
theorem c6_unsupported_no_remote_call_witness :
    (captureWorkflow envNoCapability (RemoteOutcome.response none) "d" 1
        initialState).analyzeCalls = 0
    ∧ (captureWorkflow envNoCapability (RemoteOutcome.response none) "d" 1
        initialState).gdmRequests = 0 :=
  c6_unsupported_no_remote_call envNoCapability (RemoteOutcome.response none)
    "d" 1 initialState rfl

/-- Claim C7: every failure occurring before stream acquisition — the
capability being absent, or the permission prompt being declined — leaves
an error message set, the loading flag cleared, no stream acquired, no
analysis call made, and at most one getDisplayMedia attempt (no automatic
retry), an idle and retriable state. -/
theorem c7_prestream_failure_resets (env : Env) (remote : RemoteOutcome)
    (fd : String) (n : Nat) (s : AppState)
    (h : captureSupported env = false ∨ env.userGrants = false) :
    (captureWorkflow env remote fd n s).state.error = some cancelledMsg
    ∧ (captureWorkflow env remote fd n s).state.loading = false
    ∧ (captureWorkflow env remote fd n s).analyzeCalls = 0
    ∧ (captureWorkflow env remote fd n s).gdmRequests ≤ 1
    ∧ (captureWorkflow env remote fd n s).tracks = none := by
  rcases h with h | h
  · simp [captureWorkflow, h]
  · by_cases hs : captureSupported env = false
    · simp [captureWorkflow, hs]
    · simp [captureWorkflow, hs, h]

/-- Witness for c7_prestream_failure_resets at a declined prompt. -/
theorem c7_prestream_failure_resets_witness :
    (captureWorkflow envUserDeclines (RemoteOutcome.response none) "d" 1
        initialState).state.error = some cancelledMsg
    ∧ (captureWorkflow envUserDeclines (RemoteOutcome.response none) "d" 1
        initialState).state.loading = false
    ∧ (captureWorkflow envUserDeclines (RemoteOutcome.response none) "d" 1
        initialState).analyzeCalls = 0
    ∧ (captureWorkflow envUserDeclines (RemoteOutcome.response none) "d" 1
        initialState).gdmRequests ≤ 1
    ∧ (captureWorkflow envUserDeclines (RemoteOutcome.response none) "d" 1
        initialState).tracks = none :=
  c7_prestream_failure_resets envUserDeclines (RemoteOutcome.response none)
    "d" 1 initialState (Or.inr rfl)

/-- Claim C8: dismissing a shown result resets the suggestion, the
screenshot, and the result-visibility flag to their initial values,
whatever the prior state held. -/
theorem c8_close_result_resets (s : AppState) :
    (closeResult s).suggestion = initialState.suggestion
    ∧ (closeResult s).screenshot = initialState.screenshot
    ∧ (closeResult s).showResult = initialState.showResult :=
  ⟨rfl, rfl, rfl⟩

/-- Claim C9: closeResult touches only those three cells — the error
message and the loading flag are left exactly as they were, so a pending
error toast survives dismissal. -/
theorem c9_close_result_frame (s : AppState) :
    (closeResult s).error = s.error ∧ (closeResult s).loading = s.loading :=
  ⟨rfl, rfl⟩

/-- Splitting on a separator that does not occur yields the whole list as
the single piece. -/
theorem splitOnChar_not_mem (sep : Char) (l : List Char) (h : sep ∉ l) :
    splitOnChar sep l = [l] := by
  induction l with
  | nil => rfl
  | cons c cs ih =>
    have hc : ¬ c = sep := fun e => h (e ▸ List.mem_cons_self c cs)
    have hrest : sep ∉ cs := fun m => h (List.mem_cons_of_mem c m)
    simp [splitOnChar, hc, ih hrest]

/-- Claim C10: analyzeGameScreenshot assumes a data URI with a comma; for
an input containing no comma the stripped payload is absent (undefined),
and the request is still built and sent with that absent image data — no
local validation or error occurs on the way to the remote call. -/
theorem c10_no_comma_payload_absent (s : String) (h : ',' ∉ s.data) :
    stripPayload s = none
    ∧ ∀ remote, (analyzeGameScreenshot remote s).1 =
      ⟨"gemini-3-flash-preview", "image/png", none⟩ := by
  have hsplit : splitOnChar ',' s.data = [s.data] := splitOnChar_not_mem ',' s.data h
  have hstrip : stripPayload s = none := by
    simp [stripPayload, hsplit]
  refine ⟨hstrip, fun remote => ?_⟩
  cases remote <;> simp [analyzeGameScreenshot, mkRequest, hstrip]

/-- Witness for c10_no_comma_payload_absent at a comma-free input. -/
theorem c10_no_comma_payload_absent_witness :
    stripPayload "abc" = none
    ∧ ∀ remote, (analyzeGameScreenshot remote "abc").1 =
      ⟨"gemini-3-flash-preview", "image/png", none⟩ :=
  c10_no_comma_payload_absent "abc" (by decide)

end WanJoo
